import Mathlib

/-
Verification of the measurement and aggregation engine of the WiFi speed
analyzer (src/app.js).  JavaScript numbers are modelled as exact rationals
(ℚ); stateful methods of the `SpeedTestAnalyzer` class are modelled as pure
functions on an explicit state; network effects (fetch results, random
draws, wall-clock time) are passed in as explicit parameters.
-/

namespace WifiAnalyzer

/-- Chart data of the analyzer: `this.testData` in src/app.js (lines 13-17).
The download and upload series hold published Mbps values; `timestamps`
holds the label pushed alongside each download sample. -/
structure TestData where
  download : List ℚ
  upload : List ℚ
  timestamps : List String
deriving DecidableEq

/-- Configuration record `this.config` (src/app.js lines 32-42); only the
fields the measurement engine reads are modelled. -/
structure Config where
  testDuration : ℚ
  updateInterval : ℚ
  maxDataPoints : ℕ
deriving DecidableEq

/-- The configuration constructed in src/app.js lines 32-42. -/
def defaultConfig : Config :=
  { testDuration := 10000, updateInterval := 200, maxDataPoints := 20 }

/-- JavaScript `Math.round(x*100)/100` (src/app.js lines 917 and 932):
`Math.round` is floor of the argument plus one half. -/
def round2 (x : ℚ) : ℚ := (⌊x * 100 + 1 / 2⌋ : ℚ) / 100

/-- Eviction step of `updateChart` (src/app.js lines 969-977): when the
timestamp series exceeds `maxDataPoints`, shift the oldest entry off the
timestamp and download series, and off the upload series when nonempty. -/
def updateChart (maxDataPoints : ℕ) (d : TestData) : TestData :=
  if d.timestamps.length > maxDataPoints then
    { download := d.download.drop 1
      upload := if d.upload.length > 0 then d.upload.drop 1 else d.upload
      timestamps := d.timestamps.drop 1 }
  else d

/-- The data mutation of `updateDownloadSpeed` (src/app.js lines 916-925):
round the speed to two decimals, push it on the download series together
with a timestamp label, then run the chart eviction. -/
def updateDownloadSpeed (cfg : Config) (ts : String) (speed : ℚ)
    (d : TestData) : TestData :=
  updateChart cfg.maxDataPoints
    { d with
      download := d.download ++ [round2 speed]
      timestamps := d.timestamps ++ [ts] }

/-- The data mutation of `updateUploadSpeed` (src/app.js lines 931-939):
round the speed to two decimals and push it on the upload series only (no
timestamp is pushed), then run the chart eviction. -/
def updateUploadSpeed (cfg : Config) (speed : ℚ) (d : TestData) : TestData :=
  updateChart cfg.maxDataPoints
    { d with upload := d.upload ++ [round2 speed] }

/-- The data reset of `resetTestUI` (src/app.js line 1015). -/
def resetTestUI : TestData := { download := [], upload := [], timestamps := [] }

/-- Iterated download-sample publications: each pair is the timestamp label
and the raw speed handed to `updateDownloadSpeed`. -/
def pushDownloads (cfg : Config) (ps : List (String × ℚ)) (d : TestData) :
    TestData :=
  ps.foldl (fun acc p => updateDownloadSpeed cfg p.1 p.2 acc) d

/-- Iterated upload-sample publications through `updateUploadSpeed`. -/
def pushUploads (cfg : Config) (vs : List ℚ) (d : TestData) : TestData :=
  vs.foldl (fun acc v => updateUploadSpeed cfg v acc) d

/-- Average used throughout src/app.js: `list.reduce((a,b)=>a+b,0)/list.length`. -/
def avgOf (l : List ℚ) : ℚ := l.sum / l.length

/-- The four presentation bands of the latency classification
(src/app.js lines 352-364). -/
inductive LatencyBand where
  | excellent
  | good
  | fair
  | poor
deriving DecidableEq

/-- Latency classification cascade of `measureLatency`
(src/app.js lines 352-364): `avg < 50` excellent, else `avg < 100` good,
else `avg < 200` fair, else poor. -/
def classifyLatency (avg : ℚ) : LatencyBand :=
  if avg < 50 then .excellent
  else if avg < 100 then .good
  else if avg < 200 then .fair
  else .poor

/-- Outcome of the three latency probe methods and the random draw of one
trial of `measureLatency` (src/app.js lines 311-330): `none` means the
method threw, `some v` the measured milliseconds; `rand` is the value of
`Math.random()` used when all three methods fail. -/
structure TrialMethods where
  fetchResult : Option ℚ
  imageResult : Option ℚ
  webrtcResult : Option ℚ
  rand : ℚ
deriving DecidableEq

/-- One trial of `measureLatency` (src/app.js lines 311-330): method 1,
falling back to method 2, then method 3, then the synthetic estimate
`50 + Math.random() * 50`. -/
def trialLatency (t : TrialMethods) : ℚ :=
  match t.fetchResult with
  | some v => v
  | none =>
    match t.imageResult with
    | some v => v
    | none =>
      match t.webrtcResult with
      | some v => v
      | none => 50 + t.rand * 50

/-- The average computed by `measureLatency` over its `testCount = 3`
trials (src/app.js lines 309, 345). -/
def measureLatency (t1 t2 t3 : TrialMethods) : ℚ :=
  (trialLatency t1 + trialLatency t2 + trialLatency t3) / 3

/-- One probe interaction of a sampling-loop iteration: how many bytes the
endpoint delivered and the wall-clock milliseconds measured around the
transfer (`testEnd - testStart` in src/app.js lines 794-805). -/
structure ProbeResult where
  bytes : ℕ
  elapsedMs : ℚ
deriving DecidableEq

/-- Throughput computation of src/app.js lines 808-810 (and 871-873):
`seconds = elapsedMs / 1000`, `mbps = bytes*8 / (1024*1024*seconds)`. -/
def mbpsOf (bytes : ℕ) (elapsedMs : ℚ) : ℚ :=
  (bytes * 8 : ℚ) / (1024 * 1024 * (elapsedMs / 1000))

/-- Sanity-filtered recording of one computed download sample
(src/app.js lines 812-815): only when `0 < mbps < 1000` is the sample
appended to `downloadSpeeds` and published via `updateDownloadSpeed`. -/
def recordSample (cfg : Config) (ts : String) (m : ℚ) (speeds : List ℚ)
    (d : TestData) : List ℚ × TestData :=
  if 0 < m ∧ m < 1000 then (speeds ++ [m], updateDownloadSpeed cfg ts m d)
  else (speeds, d)

/-- The while loop of `runDownloadTest` (src/app.js lines 787-823), run with
`isTestRunning` held true.  `elapsed` models `Date.now() - startTime`; each
iteration advances it by the probe wall time plus the inter-iteration sleep
of `updateInterval` milliseconds.  `fuel` bounds the recursion and is chosen
larger than the possible iteration count. -/
def downloadLoopGo (cfg : Config) (probe : ℕ → ProbeResult) (ts : String) :
    ℕ → ℕ → ℚ → List ℚ → TestData → List ℚ × TestData
  | 0, _, _, speeds, d => (speeds, d)
  | fuel + 1, i, elapsed, speeds, d =>
    if elapsed < cfg.testDuration then
      let r := probe i
      let m := mbpsOf r.bytes r.elapsedMs
      let sd := recordSample cfg ts m speeds d
      downloadLoopGo cfg probe ts fuel (i + 1)
        (elapsed + r.elapsedMs + cfg.updateInterval) sd.1 sd.2
    else (speeds, d)

/-- The whole of `runDownloadTest` (src/app.js lines 780-832): the sampling
loop followed by publication of the final average through
`updateDownloadSpeed` when at least one sample was recorded. -/
def runDownloadTest (cfg : Config) (probe : ℕ → ProbeResult) (ts : String)
    (fuel : ℕ) (d : TestData) : List ℚ × TestData :=
  let out := downloadLoopGo cfg probe ts fuel 0 0 [] d
  if out.1.length > 0 then (out.1, updateDownloadSpeed cfg ts (avgOf out.1) out.2)
  else out

/-- Orchestrator state: the `isTestRunning` flag (src/app.js line 12)
together with the chart data. -/
structure AnalyzerState where
  isTestRunning : Bool
  testData : TestData
deriving DecidableEq

/-- The state mutation of `stopSpeedTest` (src/app.js lines 999-1006): clear
the running flag; the chart series are not touched. -/
def stopSpeedTest (st : AnalyzerState) : AnalyzerState :=
  { st with isTestRunning := false }

/-- The state behaviour of `startSpeedTest` (src/app.js lines 747-775).
If already running it returns at once (line 748).  Otherwise it sets the
flag, resets the series, runs the test sequence — modelled by `body`, which
returns the state it reached together with `Except.ok` on normal completion
or `Except.error` when any step raised — and in the `finally` block always
calls `stopSpeedTest`.  The boolean result records whether a session was
launched. -/
def startSpeedTest (body : AnalyzerState → AnalyzerState × Except String Unit)
    (st : AnalyzerState) : AnalyzerState × Bool :=
  if st.isTestRunning then (st, false)
  else
    let st1 : AnalyzerState := { isTestRunning := true, testData := resetTestUI }
    let br := body st1
    (stopSpeedTest br.1, true)

/-- The network-information UI fields written by `loadNetworkInfo` and reset
by `handleNetworkInfoError` (src/app.js line 290). -/
structure NetFields where
  publicIP : String
  location : String
  isp : String
  localIP : String
  networkName : String
  connectionSpeed : String
  signalStrength : String
  networkQuality : String
deriving DecidableEq

/-- Geolocation payload of the second lookup in `loadNetworkInfo`
(src/app.js lines 233-237): any field may be absent. -/
structure GeoData where
  city : Option String
  country_name : Option String
  org : Option String
deriving DecidableEq

/-- Classification parameter of `showStatus` (src/app.js line 1156):
`'info' | 'success' | 'error' | 'warning'`. -/
inductive NotifyKind where
  | info
  | success
  | error
  | warning
deriving DecidableEq

/-- Error-message lookup table of `handleNetworkInfoError`
(src/app.js lines 280-286). -/
def errorMessageFor (msg : String) : String :=
  if msg = "Failed to fetch" then
    "Network connection error - please check your internet connection"
  else if msg = "timeout" then "Request timed out - please try again"
  else "Failed to load network information"

/-- `handleNetworkInfoError` (src/app.js lines 279-297): emit one
error-classified status notification and overwrite every network-info field
— including `publicIP` — with the text `Error loading`. -/
def handleNetworkInfoError (msg : String) (_f : NetFields) :
    NetFields × List (String × NotifyKind) :=
  ({ publicIP := "Error loading", location := "Error loading"
     isp := "Error loading", localIP := "Error loading"
     networkName := "Error loading", connectionSpeed := "Error loading"
     signalStrength := "Error loading", networkQuality := "Error loading" },
   [(errorMessageFor msg, .error)])

/-- `updateNetworkInfo` (src/app.js lines 260-273): fill the location and
ISP fields from the geolocation payload with `Unknown` defaults. -/
def updateNetworkInfo (g : GeoData) (f : NetFields) : NetFields :=
  { f with
    location := g.city.getD "Unknown" ++ ", " ++ g.country_name.getD "Unknown"
    isp := g.org.getD "Unknown ISP" }

/-- `loadNetworkInfo` (src/app.js lines 217-254).  The internally
fault-tolerant sub-steps are abstracted: `early` is the field update
performed by `getLocalIP` and `getNetworkConnectionInfo` (they catch their
own errors and never throw), `late` that of `measureLatency` and
`analyzeConnectionQuality`.  `ipResult` and `geoResult` are the outcomes of
the two fallible fetches; a thrown error lands in the surrounding catch,
which delegates to `handleNetworkInfoError`.  Returns the final fields and
the list of `(message, kind)` status notifications emitted. -/
def loadNetworkInfo (early late : NetFields → NetFields)
    (ipResult : Except String String) (geoResult : String → Except String GeoData)
    (f : NetFields) : NetFields × List (String × NotifyKind) :=
  let f1 := early f
  match ipResult with
  | .error e =>
    let r := handleNetworkInfoError e f1
    (r.1, ("Loading network information...", .info) :: r.2)
  | .ok ip =>
    let f2 := { f1 with publicIP := ip }
    match geoResult ip with
    | .error e =>
      let r := handleNetworkInfoError e f2
      (r.1, ("Loading network information...", .info) :: r.2)
    | .ok g =>
      let f3 := late (updateNetworkInfo g f2)
      (f3, [("Loading network information...", .info),
            ("Network information updated successfully", .success)])

/-- Chart-relevant operations for the series invariant: a download-sample
publication, an upload-sample publication, or a reset. -/
inductive ChartOp where
  | downPush (ts : String) (v : ℚ)
  | upPush (v : ℚ)
  | reset
deriving DecidableEq

/-- Interpretation of one chart operation on the data. -/
def applyOp (cfg : Config) (d : TestData) : ChartOp → TestData
  | .downPush ts v => updateDownloadSpeed cfg ts v d
  | .upPush v => updateUploadSpeed cfg v d
  | .reset => resetTestUI

/-- Interpretation of a sequence of chart operations. -/
def applyOps (cfg : Config) (ops : List ChartOp) (d : TestData) : TestData :=
  ops.foldl (applyOp cfg) d

/-- A bounded FIFO push on one series: append at the back, and when the
length would exceed the capacity, shift the oldest element off the front. -/
def pushBounded (C : ℕ) (x : α) (l : List α) : List α :=
  if l.length + 1 > C then (l ++ [x]).drop 1 else l ++ [x]

/-
Theorems.
-/

/-- C4: when all three probe methods fail in each of the 3 trials, each
trial synthesizes `50 + rand * 50`, and `measureLatency` returns the
arithmetic mean of the three trial values, a (finite, rational) value in
the half-open interval `[50, 100)`; the operation is a total function and
never fails. -/
theorem probeLatency_fallback_bounds (r1 r2 r3 : ℚ)
    (h1 : 0 ≤ r1 ∧ r1 < 1) (h2 : 0 ≤ r2 ∧ r2 < 1) (h3 : 0 ≤ r3 ∧ r3 < 1) :
    trialLatency ⟨none, none, none, r1⟩ = 50 + r1 * 50 ∧
    50 ≤ measureLatency ⟨none, none, none, r1⟩ ⟨none, none, none, r2⟩
        ⟨none, none, none, r3⟩ ∧
    measureLatency ⟨none, none, none, r1⟩ ⟨none, none, none, r2⟩
        ⟨none, none, none, r3⟩ < 100 := by
  refine ⟨rfl, ?_, ?_⟩ <;>
    · simp only [measureLatency, trialLatency]
      obtain ⟨h1a, h1b⟩ := h1
      obtain ⟨h2a, h2b⟩ := h2
      obtain ⟨h3a, h3b⟩ := h3
      linarith

/-- Witness for C4 at the concrete random draws 0, 0, 0. -/
theorem probeLatency_fallback_bounds_witness :
    ((0:ℚ) ≤ 0 ∧ (0:ℚ) < 1) ∧
    50 ≤ measureLatency ⟨none, none, none, 0⟩ ⟨none, none, none, 0⟩
        ⟨none, none, none, 0⟩ ∧
    measureLatency ⟨none, none, none, 0⟩ ⟨none, none, none, 0⟩
        ⟨none, none, none, 0⟩ < 100 :=
  ⟨⟨le_refl 0, by norm_num⟩,
   (probeLatency_fallback_bounds 0 0 0 ⟨by norm_num, by norm_num⟩
      ⟨by norm_num, by norm_num⟩ ⟨by norm_num, by norm_num⟩).2.1,
   (probeLatency_fallback_bounds 0 0 0 ⟨by norm_num, by norm_num⟩
      ⟨by norm_num, by norm_num⟩ ⟨by norm_num, by norm_num⟩).2.2⟩

/-- C5: latency classification is a pure total function of the numeric
average; the bands are half-open and exhaustive on the non-negative
rationals, and exactly 50 classifies as good, not excellent. -/
theorem latency_classification_bands (x : ℚ) (hx : 0 ≤ x) :
    (classifyLatency x = .excellent ↔ x < 50) ∧
    (classifyLatency x = .good ↔ 50 ≤ x ∧ x < 100) ∧
    (classifyLatency x = .fair ↔ 100 ≤ x ∧ x < 200) ∧
    (classifyLatency x = .poor ↔ 200 ≤ x) ∧
    classifyLatency 50 = .good := by
  refine ⟨?_, ?_, ?_, ?_, by norm_num [classifyLatency]⟩ <;>
    · unfold classifyLatency
      split_ifs with ha hb hc <;> simp <;>
        first
          | linarith
          | (constructor <;> linarith)
          | (rintro ⟨hA, hB⟩; linarith)
          | (intro hA; linarith)

/-- Witness for C5 at the boundary input 50. -/
theorem latency_classification_bands_witness :
    (0:ℚ) ≤ 50 ∧ classifyLatency 50 = .good :=
  ⟨by norm_num, (latency_classification_bands 50 (by norm_num)).2.2.2.2⟩

/-- C6: a computed throughput sample with `mbps <= 0` or `mbps >= 1000` is
discarded by the sanity filter: it is neither appended to the per-phase
sample list nor published to the series, and the final average over the
recorded samples is unaffected. -/
theorem sanity_filter_discards (cfg : Config) (ts : String) (m : ℚ)
    (speeds : List ℚ) (d : TestData) (h : m ≤ 0 ∨ 1000 ≤ m) :
    recordSample cfg ts m speeds d = (speeds, d) ∧
    avgOf (recordSample cfg ts m speeds d).1 = avgOf speeds := by
  have hc : ¬(0 < m ∧ m < 1000) := by
    rcases h with h | h
    · exact fun hx => absurd hx.1 (not_lt.mpr h)
    · exact fun hx => absurd hx.2 (not_lt.mpr h)
  refine ⟨by simp [recordSample, hc], by simp [recordSample, hc]⟩

/-- Witness for C6 at the boundary sample 1000 Mbps. -/
theorem sanity_filter_discards_witness :
    ((1000:ℚ) ≤ 0 ∨ (1000:ℚ) ≤ 1000) ∧
    recordSample defaultConfig "t" 1000 [] resetTestUI = ([], resetTestUI) :=
  ⟨Or.inr (le_refl 1000),
   (sanity_filter_discards defaultConfig "t" 1000 [] resetTestUI
      (Or.inr (le_refl 1000))).1⟩

/-- C7: the orchestrator re-entry guards are idempotent: `stopSpeedTest` on
an idle state leaves the running flag and all series unchanged, and
`startSpeedTest` on a running state returns immediately — no session body
runs, no series reset happens, the state is returned unchanged. -/
theorem reentry_guards_idempotent (st : AnalyzerState)
    (body : AnalyzerState → AnalyzerState × Except String Unit) :
    (st.isTestRunning = false → stopSpeedTest st = st) ∧
    (st.isTestRunning = true → startSpeedTest body st = (st, false)) := by
  constructor
  · intro h
    cases st
    simp_all [stopSpeedTest]
  · intro h
    simp [startSpeedTest, h]

/-- Witness for C7: a concrete idle state for `stopSpeedTest` and a
concrete running state for `startSpeedTest`. -/
theorem reentry_guards_idempotent_witness :
    stopSpeedTest ⟨false, resetTestUI⟩ = ⟨false, resetTestUI⟩ ∧
    startSpeedTest (fun s => (s, .ok ())) ⟨true, resetTestUI⟩
      = (⟨true, resetTestUI⟩, false) :=
  ⟨(reentry_guards_idempotent ⟨false, resetTestUI⟩ (fun s => (s, .ok ()))).1 rfl,
   (reentry_guards_idempotent ⟨true, resetTestUI⟩ (fun s => (s, .ok ()))).2 rfl⟩

/-- C8: every launched test session ends idle: whatever the test sequence
body does — complete normally or raise at any step, leaving any
intermediate state — the `finally`-style cleanup runs `stopSpeedTest`, so
the resulting `isTestRunning` flag is false on every execution path. -/
theorem session_ends_idle
    (body : AnalyzerState → AnalyzerState × Except String Unit)
    (st : AnalyzerState) (h : st.isTestRunning = false) :
    ((startSpeedTest body st).1).isTestRunning = false := by
  simp [startSpeedTest, h, stopSpeedTest]

/-- Witness for C8 with a body that raises an error. -/
theorem session_ends_idle_witness :
    (⟨false, resetTestUI⟩ : AnalyzerState).isTestRunning = false ∧
    ((startSpeedTest (fun s => (s, .error "network error"))
        ⟨false, resetTestUI⟩).1).isTestRunning = false :=
  ⟨rfl, session_ends_idle (fun s => (s, .error "network error"))
    ⟨false, resetTestUI⟩ rfl⟩

/-- Helper: one chart operation preserves the length invariant
`len download = len timestamps` and the capacity bound on timestamps. -/
theorem applyOp_preserves_inv (cfg : Config) (d : TestData) (op : ChartOp)
    (h1 : d.download.length = d.timestamps.length)
    (h2 : d.timestamps.length ≤ cfg.maxDataPoints) :
    (applyOp cfg d op).download.length = (applyOp cfg d op).timestamps.length ∧
    (applyOp cfg d op).timestamps.length ≤ cfg.maxDataPoints := by
  cases op with
  | downPush ts v =>
    simp only [applyOp, updateDownloadSpeed, updateChart]
    split_ifs with hc <;> simp_all <;> omega
  | upPush v =>
    simp only [applyOp, updateUploadSpeed, updateChart]
    split_ifs with hc <;> simp_all <;> omega
  | reset =>
    simp [applyOp, resetTestUI]

/-- Helper: the length invariant is preserved along any operation list. -/
theorem applyOps_preserves_inv (cfg : Config) :
    ∀ (ops : List ChartOp) (d : TestData),
      d.download.length = d.timestamps.length →
      d.timestamps.length ≤ cfg.maxDataPoints →
      (applyOps cfg ops d).download.length
          = (applyOps cfg ops d).timestamps.length ∧
      (applyOps cfg ops d).timestamps.length ≤ cfg.maxDataPoints := by
  intro ops
  induction ops with
  | nil =>
    intro d h1 h2
    exact ⟨by simpa [applyOps] using h1, by simpa [applyOps] using h2⟩
  | cons op ops ih =>
    intro d h1 h2
    have h := applyOp_preserves_inv cfg d op h1 h2
    simpa [applyOps, List.foldl_cons] using ih (applyOp cfg d op) h.1 h.2

/-- C9: at every chart update reachable from the reset state by
download-sample publications, upload-sample publications and resets, the
download and timestamp series have equal lengths (each download publication
appends to both, eviction drops from both, reset empties both), and the
timestamp series never exceeds `maxDataPoints`; the upload series length is
unconstrained by this invariant and may lag. -/
theorem chart_length_invariant (cfg : Config) (ops : List ChartOp) :
    (applyOps cfg ops resetTestUI).download.length
        = (applyOps cfg ops resetTestUI).timestamps.length ∧
    (applyOps cfg ops resetTestUI).timestamps.length ≤ cfg.maxDataPoints :=
  applyOps_preserves_inv cfg ops resetTestUI rfl (by simp [resetTestUI])

/-- Helper: JavaScript two-decimal rounding moves a value by at most
`0.005`. -/
theorem round2_abs_err (v : ℚ) : |round2 v - v| ≤ 1 / 200 := by
  have h1 : (⌊v * 100 + 1 / 2⌋ : ℚ) ≤ v * 100 + 1 / 2 := Int.floor_le _
  have h2 : v * 100 + 1 / 2 - 1 < (⌊v * 100 + 1 / 2⌋ : ℚ) := Int.sub_one_lt_floor _
  rw [round2, abs_le]
  constructor <;> linarith

/-- Helper: dropping the front of a nonempty list does not disturb the
element just appended at the back. -/
theorem drop_one_append_getLast? (l : List α) (x : α) (h : 1 ≤ l.length) :
    ((l ++ [x]).drop 1).getLast? = some x := by
  cases l with
  | nil => simp at h
  | cons a as => simp

/-- C10: every value published into the download or upload series is first
rounded to 2 decimal places via `Math.round(value*100)/100`: the element
just appended is `round2` of the raw speed, never the raw speed itself, and
the stored sample differs from the raw measurement by at most 0.005 Mbps. -/
theorem published_values_rounded (cfg : Config) (ts : String) (v : ℚ)
    (d : TestData) (hC : 1 ≤ cfg.maxDataPoints)
    (hlen : d.download.length = d.timestamps.length)
    (hcap : d.timestamps.length ≤ cfg.maxDataPoints) :
    (updateDownloadSpeed cfg ts v d).download.getLast? = some (round2 v) ∧
    (updateUploadSpeed cfg v d).upload.getLast? = some (round2 v) ∧
    |round2 v - v| ≤ 1 / 200 := by
  refine ⟨?_, ?_, round2_abs_err v⟩
  · simp only [updateDownloadSpeed, updateChart]
    split_ifs with hc h2
    · exact drop_one_append_getLast? _ _ (by
        simp only [List.length_append, List.length_singleton] at hc; omega)
    · exact drop_one_append_getLast? _ _ (by
        simp only [List.length_append, List.length_singleton] at hc; omega)
    · simp
  · simp only [updateUploadSpeed, updateChart]
    split_ifs with hc h2
    · exact absurd hc (by omega)
    · exact absurd hc (by omega)
    · simp

/-- Witness for C10 at the raw speed 1/3 Mbps in the reset state. -/
theorem published_values_rounded_witness :
    (1 ≤ defaultConfig.maxDataPoints ∧
      resetTestUI.download.length = resetTestUI.timestamps.length ∧
      resetTestUI.timestamps.length ≤ defaultConfig.maxDataPoints) ∧
    (updateDownloadSpeed defaultConfig "t" (1/3) resetTestUI).download.getLast?
        = some (round2 (1/3)) ∧
    (updateUploadSpeed defaultConfig (1/3) resetTestUI).upload.getLast?
        = some (round2 (1/3)) ∧
    |round2 (1/3) - 1/3| ≤ 1 / 200 :=
  ⟨⟨by norm_num [defaultConfig], rfl, by norm_num [resetTestUI, defaultConfig]⟩,
   published_values_rounded defaultConfig "t" (1/3) resetTestUI
     (by norm_num [defaultConfig]) rfl (by norm_num [resetTestUI, defaultConfig])⟩

/-- Helper: iterating the bounded FIFO push from a state within capacity
yields the suffix of the pushed history that fits the capacity. -/
theorem foldl_pushBounded (C : ℕ) :
    ∀ (xs init : List α), init.length ≤ C →
      xs.foldl (fun l x => pushBounded C x l) init
        = (init ++ xs).drop (init.length + xs.length - C) := by
  intro xs
  induction xs with
  | nil =>
    intro init h
    simp [Nat.sub_eq_zero_of_le h]
  | cons x xs ih =>
    intro init h
    simp only [List.foldl_cons]
    by_cases hlt : init.length + 1 ≤ C
    · rw [show pushBounded C x init = init ++ [x] from if_neg (by omega)]
      rw [ih (init ++ [x]) (by simp; omega)]
      have harith : (init ++ [x]).length + xs.length - C
          = init.length + (xs.length + 1) - C := by simp; omega
      rw [harith, List.append_assoc]
      simp
    · have hinit : init.length = C := by omega
      rw [show pushBounded C x init = (init ++ [x]).drop 1 from if_pos (by omega)]
      rw [ih ((init ++ [x]).drop 1) (by simp; omega)]
      have hdrop1 : (init ++ [x]).drop 1 ++ xs = ((init ++ [x]) ++ xs).drop 1 :=
        (List.drop_append_of_le_length (by simp)).symm
      rw [hdrop1, List.drop_drop]
      have harith : 1 + (((init ++ [x]).drop 1).length + xs.length - C)
          = init.length + (x :: xs).length - C := by simp; omega
      rw [harith, List.append_assoc]
      rfl

/-- Helper: the download and timestamp components of one download-sample
publication are bounded FIFO pushes, provided the two series have equal
lengths (the chart invariant); the eviction condition of `updateChart` is
keyed on the timestamp length, which then coincides with the download
length. -/
theorem updateDownloadSpeed_components (cfg : Config) (ts : String) (v : ℚ)
    (d : TestData) (h : d.download.length = d.timestamps.length) :
    (updateDownloadSpeed cfg ts v d).download
        = pushBounded cfg.maxDataPoints (round2 v) d.download ∧
    (updateDownloadSpeed cfg ts v d).timestamps
        = pushBounded cfg.maxDataPoints ts d.timestamps := by
  simp only [updateDownloadSpeed, updateChart, pushBounded, List.length_append,
    List.length_singleton]
  constructor <;> split_ifs <;> simp_all <;> omega

/-- Helper: download-sample publications factor through `pushBounded`
componentwise. -/
theorem pushDownloads_components (cfg : Config) :
    ∀ (ps : List (String × ℚ)) (d : TestData),
      d.download.length = d.timestamps.length →
      (pushDownloads cfg ps d).download
          = (ps.map fun p => round2 p.2).foldl
              (fun l x => pushBounded cfg.maxDataPoints x l) d.download ∧
      (pushDownloads cfg ps d).timestamps
          = (ps.map Prod.fst).foldl
              (fun l x => pushBounded cfg.maxDataPoints x l) d.timestamps := by
  intro ps
  induction ps with
  | nil =>
    intro d h
    simp [pushDownloads]
  | cons p ps ih =>
    intro d h
    obtain ⟨hd, ht⟩ := updateDownloadSpeed_components cfg p.1 p.2 d h
    have hlen : (updateDownloadSpeed cfg p.1 p.2 d).download.length
        = (updateDownloadSpeed cfg p.1 p.2 d).timestamps.length := by
      rw [hd, ht]
      simp only [pushBounded, h]
      split_ifs <;> simp [h]
    obtain ⟨ihd, iht⟩ := ih (updateDownloadSpeed cfg p.1 p.2 d) hlen
    constructor
    · simpa [pushDownloads, List.foldl_cons, hd] using ihd
    · simpa [pushDownloads, List.foldl_cons, ht] using iht

/-- C1 (amended): the rolling-window property holds for the download
series: after the pushes `ps` from the reset state, the download series has
length `min N C` and holds exactly the `min N C` most recently pushed
(rounded) values in push order, and the timestamp series the matching
suffix of labels — the oldest pair is evicted from both series when the
capacity is exceeded.  (The upload series is not governed by this law: see
the counterexample.) -/
theorem download_series_rolling_window (cfg : Config) (ps : List (String × ℚ)) :
    (pushDownloads cfg ps resetTestUI).download.length
        = min ps.length cfg.maxDataPoints ∧
    (pushDownloads cfg ps resetTestUI).download
        = (ps.map fun p => round2 p.2).drop (ps.length - cfg.maxDataPoints) ∧
    (pushDownloads cfg ps resetTestUI).timestamps
        = (ps.map Prod.fst).drop (ps.length - cfg.maxDataPoints) := by
  obtain ⟨hd, ht⟩ := pushDownloads_components cfg ps resetTestUI rfl
  have e1 : resetTestUI.download = [] := rfl
  have e2 : resetTestUI.timestamps = [] := rfl
  rw [foldl_pushBounded cfg.maxDataPoints _ _ (by rw [e1]; simp)] at hd
  rw [foldl_pushBounded cfg.maxDataPoints _ _ (by rw [e2]; simp)] at ht
  rw [e1] at hd
  rw [e2] at ht
  simp only [List.nil_append, List.length_nil, zero_add, List.length_map]
    at hd ht
  refine ⟨?_, hd, ht⟩
  rw [hd, List.length_drop, List.length_map]
  omega

/-- Helper: upload-sample publications never trigger eviction while the
timestamp series is within capacity, because the eviction condition of
`updateChart` tests the timestamp series, which `updateUploadSpeed` does
not extend. -/
theorem pushUploads_no_evict (cfg : Config) :
    ∀ (vs : List ℚ) (d : TestData),
      d.timestamps.length ≤ cfg.maxDataPoints →
      pushUploads cfg vs d = { d with upload := d.upload ++ vs.map round2 } := by
  intro vs
  induction vs with
  | nil =>
    intro d h
    simp [pushUploads]
  | cons v vs ih =>
    intro d h
    have hstep : updateUploadSpeed cfg v d
        = { d with upload := d.upload ++ [round2 v] } := by
      simp only [updateUploadSpeed, updateChart]
      split_ifs with hc h2
      · exact absurd hc (by omega)
      · exact absurd hc (by omega)
      · rfl
    have := ih { d with upload := d.upload ++ [round2 v] } h
    simp only [pushUploads, List.foldl_cons] at *
    rw [hstep, this, List.map_cons, List.append_assoc]
    rfl

/-- C1 counterexample: 21 upload-sample publications from the reset state
with capacity `maxDataPoints = 20` leave the upload series at length 21,
not `min 21 20 = 20`: upload pushes never trigger the eviction, which is
keyed on the timestamp series that they do not extend. -/
theorem upload_series_unbounded_cex :
    (pushUploads defaultConfig (List.replicate 21 1) resetTestUI).upload.length = 21 ∧
    min 21 defaultConfig.maxDataPoints = 20 := by
  rw [pushUploads_no_evict defaultConfig (List.replicate 21 1) resetTestUI
    (by norm_num [resetTestUI, defaultConfig])]
  constructor
  · simp [resetTestUI]
  · norm_num [defaultConfig]

/-- C2 counterexample: a run in which the public-IP lookup succeeds with
"93.184.216.34" and the geolocation lookup then times out does NOT keep the
IP field populated: the aggregate error handler overwrites `publicIP` with
the "Error loading" placeholder. -/
theorem geo_failure_blanks_ip_cex :
    (loadNetworkInfo id id (.ok "93.184.216.34") (fun _ => .error "timeout")
        ⟨"...", "...", "...", "...", "...", "...", "...", "..."⟩).1.publicIP
      = "Error loading" ∧
    "Error loading" ≠ "93.184.216.34" := by
  refine ⟨rfl, ?_⟩
  decide

/-- C2 (amended): when the public-IP lookup succeeds and the geolocation
lookup fails, the failure does not escape `loadNetworkInfo` (it is a total
function) and exactly one error-classified notification is emitted after
the initial info notification — but the error handler overwrites ALL
network-info fields with the "Error loading" placeholder, including the
`publicIP` field already populated by the successful IP lookup and the
fields populated by the earlier sub-steps. -/
theorem geo_failure_degrades_all_fields (early late : NetFields → NetFields)
    (ip e : String) (f : NetFields) :
    (loadNetworkInfo early late (.ok ip) (fun _ => .error e) f).1.publicIP
        = "Error loading" ∧
    (loadNetworkInfo early late (.ok ip) (fun _ => .error e) f).1.location
        = "Error loading" ∧
    (loadNetworkInfo early late (.ok ip) (fun _ => .error e) f).1.isp
        = "Error loading" ∧
    (loadNetworkInfo early late (.ok ip) (fun _ => .error e) f).2
        = [("Loading network information...", .info),
           (errorMessageFor e, .error)] :=
  ⟨rfl, rfl, rfl, rfl⟩

/-- C3 counterexample: with `durationMs = 1000`, `intervalMs = 200` and a
probe that always delivers a 100000-byte body in 50 ms of measured wall
time, the loop starts an iteration every 250 ms of wall clock (probe time
plus the inter-iteration sleep), so the condition `elapsed < 1000` passes
at 0, 250, 500 and 750 only: 4 accepted samples, not 5. -/
theorem scenario1_sample_count_cex :
    (runDownloadTest ⟨1000, 200, 20⟩ (fun _ => ⟨100000, 50⟩) "t" 6
        resetTestUI).1.length = 4 ∧
    (4 : ℕ) ≠ 5 := by
  constructor
  · norm_num [runDownloadTest, downloadLoopGo, recordSample, mbpsOf, avgOf,
      updateDownloadSpeed, updateChart, round2, resetTestUI]
  · decide

/-- C3 (amended): the scenario run produces exactly 4 accepted samples
(each iteration costs 50 ms of probe time plus the 200 ms sleep), every
sample equal to `100000*8/(1024*1024*0.05) = 15625/1024 ≈ 15.26` Mbps; the
final summary is the average of the accepted samples and equals that same
per-sample value, and the published download series holds the rounded value
15.26 for the 4 streaming publications and again for the final summary
publication. -/
theorem scenario1_samples_and_summary :
    (runDownloadTest ⟨1000, 200, 20⟩ (fun _ => ⟨100000, 50⟩) "t" 6
        resetTestUI).1 = List.replicate 4 (15625 / 1024) ∧
    avgOf (runDownloadTest ⟨1000, 200, 20⟩ (fun _ => ⟨100000, 50⟩) "t" 6
        resetTestUI).1 = 15625 / 1024 ∧
    (runDownloadTest ⟨1000, 200, 20⟩ (fun _ => ⟨100000, 50⟩) "t" 6
        resetTestUI).2.download = List.replicate 5 (1526 / 100) ∧
    round2 (15625 / 1024) = 1526 / 100 := by
  refine ⟨?_, ?_, ?_, ?_⟩ <;>
    norm_num [runDownloadTest, downloadLoopGo, recordSample, mbpsOf, avgOf,
      updateDownloadSpeed, updateChart, round2, resetTestUI, List.replicate]

end WifiAnalyzer
